import Mathlib

/-!
Verification model of the wallet server's OIDC login-and-provision core
(package `pkg/restapi/oidc`): login initiation, callback validation with
first-login provisioning, authenticated profile retrieval, and logout.

The handlers' implementation file is not part of the sources available here
(only its test suite `operations_test.go` is), so every handler below is
modelled from the specification document, section by section; where the
specification is silent, the branch is pinned to what the repository's own
test suite asserts, and this is noted in the doc comment of the definition.

External collaborators (identity provider, KMS, EDV, authorization server,
session-cookie jar, user/token store) are modelled as oracle values: each
fallible call is an `Except String _` value recording whether the call
succeeds and what it returns, mirroring the interfaces in spec section 6.
-/

/-- OAuth2 tokens returned by the identity provider's code exchange
(spec section 3, "User Tokens"). -/
structure OAuthTokens where
  accessToken : String
  refreshToken : String
  tokenType : String
deriving Repr, DecidableEq

/-- Bootstrap Data: the output of provisioning (spec section 3), the URLs and
IDs of the user's provisioned key stores and vaults plus the serialized
delegated capability for the user's EDV vault. -/
structure BootstrapData where
  authzKeyStoreURL : String
  opsKeyStoreURL : String
  opsEDVVaultURL : String
  edvOpsKeyID : String
  edvHMACKeyID : String
  userEDVVaultURL : String
  userEDVCapability : String
deriving Repr, DecidableEq

/-- The User Tokens record persisted in the User/Token store, keyed by
subject; Bootstrap Data is stored as part of it (spec section 3). -/
structure UserTokens where
  tokens : OAuthTokens
  bootstrap : Option BootstrapData
deriving Repr, DecidableEq

/-- A value held in the session cookie jar. The jar stores arbitrary values;
the handlers expect strings, and a non-string value is "malformed"
(spec section 4.4, "malformed cookie value"). -/
inductive CookieVal
  | str (s : String)
  | blob
deriving Repr, DecidableEq

/-- The decrypted session cookie: OIDC state and nonce (spec section 3,
"OIDC Session State") and the logged-in user's subject identifier
(spec section 3, "HTTP Session Cookie"). -/
structure Session where
  state : Option String
  nonce : Option String
  userSub : Option CookieVal
deriving Repr, DecidableEq

/-- An HTTP response as far as the claims observe it: status code, error
body, and the Location header for redirects. -/
structure HTTPResponse where
  status : Nat
  body : String
  location : Option String
deriving Repr, DecidableEq

/-- The durable state shared across requests: the User/Token store
(subject to record) and the external authorization server's bootstrap-data
store (subject to Bootstrap Data), per spec sections 3 and 6. -/
structure World where
  tokenStore : List (String × UserTokens)
  authServer : List (String × BootstrapData)
deriving Repr, DecidableEq

/-- Association-list lookup keyed by subject string. -/
def assocGet {β : Type} (k : String) : List (String × β) → Option β
  | [] => none
  | (k₁, v) :: rest => if k₁ = k then some v else assocGet k rest

/-- The needle occurs as a contiguous substring of the haystack. -/
def strContains (needle hay : String) : Prop :=
  ∃ a b, hay = a ++ needle ++ b

/-- The sub-operations of the provisioning orchestrator (spec section 4.3),
in execution order: step 1 creates the authz key store, step 2 its signing
key, step 3 shares the secret, step 4 creates the key EDV vault with its
controller and capability chain, step 5 the operational key store, step 6
the two operational keys, step 7 the user's EDV vault, step 8 posts the
assembled Bootstrap Data to the authorization server. -/
inductive StepId
  | createAuthzKeystore
  | createAuthzKey
  | postSecretShare
  | createKeyDataVault
  | createEDVController
  | createChainCapability
  | createOperationalKeyStore
  | createEDVOperationalKey
  | createEDVHMACKey
  | createUserEDVVault
  | updateUserBootstrapData
deriving Repr, DecidableEq, Fintype

/-- Each step's identifying error phrase (spec section 4.3, the list of
human-readable error messages surfaced on failure). -/
def StepId.phrase : StepId → String
  | .createAuthzKeystore => "create authz keystore"
  | .createAuthzKey => "create authz key"
  | .postSecretShare => "post secret share to auth server"
  | .createKeyDataVault => "create key data vault"
  | .createEDVController => "create edv controller"
  | .createChainCapability => "create chain capability"
  | .createOperationalKeyStore => "create operational key store"
  | .createEDVOperationalKey => "create edv operational key"
  | .createEDVHMACKey => "create edv hmac key"
  | .createUserEDVVault => "create user edv vault"
  | .updateUserBootstrapData => "update user bootstrap data"

/-- Position of a step in the orchestrator's strict execution order
(spec section 4.3: steps depend on the outputs of the previous ones). -/
def StepId.idx : StepId → Nat
  | .createAuthzKeystore => 0
  | .createAuthzKey => 1
  | .postSecretShare => 2
  | .createKeyDataVault => 3
  | .createEDVController => 4
  | .createChainCapability => 5
  | .createOperationalKeyStore => 6
  | .createEDVOperationalKey => 7
  | .createEDVHMACKey => 8
  | .createUserEDVVault => 9
  | .updateUserBootstrapData => 10

/-- Modelled from the spec: oracle results of the external calls made by the
provisioning orchestrator (spec sections 4.3 and 6; the orchestrator's
implementation is not among the available sources). Each field is the
outcome of the corresponding remote call: a produced URL/ID/capability on
success, or the wrapped cause on failure. `createUserEDVVault` yields the
vault URL together with its root capability, mirroring the EDV client's
`CreateDataVault → (vaultURL, rootCapability)` interface. -/
structure ProvisionEnv where
  createAuthzKeystore : Except String String
  createAuthzKey : Except String String
  postSecretShare : Except String Unit
  createKeyDataVault : Except String String
  createEDVController : Except String String
  createChainCapability : Except String String
  createOperationalKeyStore : Except String String
  createEDVOperationalKey : Except String String
  createEDVHMACKey : Except String String
  createUserEDVVault : Except String (String × String)
  updateUserBootstrapData : Except String Unit

/-- Uniform view of a provisioning step's outcome, discarding the produced
value: used to state "step k fails and all earlier steps succeed". -/
def stepRes (env : ProvisionEnv) : StepId → Except String Unit
  | .createAuthzKeystore => env.createAuthzKeystore.map fun _ => ()
  | .createAuthzKey => env.createAuthzKey.map fun _ => ()
  | .postSecretShare => env.postSecretShare
  | .createKeyDataVault => env.createKeyDataVault.map fun _ => ()
  | .createEDVController => env.createEDVController.map fun _ => ()
  | .createChainCapability => env.createChainCapability.map fun _ => ()
  | .createOperationalKeyStore => env.createOperationalKeyStore.map fun _ => ()
  | .createEDVOperationalKey => env.createEDVOperationalKey.map fun _ => ()
  | .createEDVHMACKey => env.createEDVHMACKey.map fun _ => ()
  | .createUserEDVVault => env.createUserEDVVault.map fun _ => ()
  | .updateUserBootstrapData => env.updateUserBootstrapData

/-- Outcome of one provisioning run: the assembled Bootstrap Data or the
failing step with its cause, the authorization server's store after the run,
and the list of steps that were actually executed. -/
structure ProvisionOutcome where
  result : Except (StepId × String) BootstrapData
  authServer : List (String × BootstrapData)
  executed : List StepId
deriving Repr

/-- Modelled from the spec: the provisioning orchestrator (spec section 4.3;
its implementation is not among the available sources). Strictly sequential
and fail-fast: each sub-operation runs only if every previous one succeeded,
a failure aborts the remaining steps immediately, and only the final step
(posting the assembled Bootstrap Data) writes to the authorization server.
Bootstrap Data is assembled from the outputs of steps 1, 4, 5, 6 and 7
(spec section 4.3 step 8 and section 3, "Bootstrap Data"). -/
def provisionRun (env : ProvisionEnv) (authServer : List (String × BootstrapData))
    (sub : String) : ProvisionOutcome :=
  match env.createAuthzKeystore with
  | .error e => ⟨.error (.createAuthzKeystore, e), authServer, [.createAuthzKeystore]⟩
  | .ok authzKeyStoreURL =>
  match env.createAuthzKey with
  | .error e => ⟨.error (.createAuthzKey, e), authServer,
      [.createAuthzKeystore, .createAuthzKey]⟩
  | .ok _pubKey =>
  match env.postSecretShare with
  | .error e => ⟨.error (.postSecretShare, e), authServer,
      [.createAuthzKeystore, .createAuthzKey, .postSecretShare]⟩
  | .ok _ =>
  match env.createKeyDataVault with
  | .error e => ⟨.error (.createKeyDataVault, e), authServer,
      [.createAuthzKeystore, .createAuthzKey, .postSecretShare, .createKeyDataVault]⟩
  | .ok opsEDVVaultURL =>
  match env.createEDVController with
  | .error e => ⟨.error (.createEDVController, e), authServer,
      [.createAuthzKeystore, .createAuthzKey, .postSecretShare, .createKeyDataVault,
       .createEDVController]⟩
  | .ok _controller =>
  match env.createChainCapability with
  | .error e => ⟨.error (.createChainCapability, e), authServer,
      [.createAuthzKeystore, .createAuthzKey, .postSecretShare, .createKeyDataVault,
       .createEDVController, .createChainCapability]⟩
  | .ok _chainCap =>
  match env.createOperationalKeyStore with
  | .error e => ⟨.error (.createOperationalKeyStore, e), authServer,
      [.createAuthzKeystore, .createAuthzKey, .postSecretShare, .createKeyDataVault,
       .createEDVController, .createChainCapability, .createOperationalKeyStore]⟩
  | .ok opsKeyStoreURL =>
  match env.createEDVOperationalKey with
  | .error e => ⟨.error (.createEDVOperationalKey, e), authServer,
      [.createAuthzKeystore, .createAuthzKey, .postSecretShare, .createKeyDataVault,
       .createEDVController, .createChainCapability, .createOperationalKeyStore,
       .createEDVOperationalKey]⟩
  | .ok edvOpsKeyID =>
  match env.createEDVHMACKey with
  | .error e => ⟨.error (.createEDVHMACKey, e), authServer,
      [.createAuthzKeystore, .createAuthzKey, .postSecretShare, .createKeyDataVault,
       .createEDVController, .createChainCapability, .createOperationalKeyStore,
       .createEDVOperationalKey, .createEDVHMACKey]⟩
  | .ok edvHMACKeyID =>
  match env.createUserEDVVault with
  | .error e => ⟨.error (.createUserEDVVault, e), authServer,
      [.createAuthzKeystore, .createAuthzKey, .postSecretShare, .createKeyDataVault,
       .createEDVController, .createChainCapability, .createOperationalKeyStore,
       .createEDVOperationalKey, .createEDVHMACKey, .createUserEDVVault]⟩
  | .ok userVault =>
  let data : BootstrapData :=
    { authzKeyStoreURL := authzKeyStoreURL
      opsKeyStoreURL := opsKeyStoreURL
      opsEDVVaultURL := opsEDVVaultURL
      edvOpsKeyID := edvOpsKeyID
      edvHMACKeyID := edvHMACKeyID
      userEDVVaultURL := userVault.1
      userEDVCapability := userVault.2 }
  match env.updateUserBootstrapData with
  | .error e => ⟨.error (.updateUserBootstrapData, e), authServer,
      [.createAuthzKeystore, .createAuthzKey, .postSecretShare, .createKeyDataVault,
       .createEDVController, .createChainCapability, .createOperationalKeyStore,
       .createEDVOperationalKey, .createEDVHMACKey, .createUserEDVVault,
       .updateUserBootstrapData]⟩
  | .ok _ => ⟨.ok data, (sub, data) :: authServer,
      [.createAuthzKeystore, .createAuthzKey, .postSecretShare, .createKeyDataVault,
       .createEDVController, .createChainCapability, .createOperationalKeyStore,
       .createEDVOperationalKey, .createEDVHMACKey, .createUserEDVVault,
       .updateUserBootstrapData]⟩

/-- Oracle results of the Identity Provider Client calls made during the
callback (spec section 6): code-for-token exchange, ID-token verification,
and parsing the verified token's claims into the user identity (the
resolved stable subject). -/
structure OIDCClientEnv where
  exchange : Except String OAuthTokens
  verifyIDToken : Except String Unit
  claims : Except String String

/-- Environment of one callback request: session-cookie open/save oracles,
identity-provider oracles, User/Token store read/write failure oracles,
the provisioning oracles, and the configured dashboard URL. -/
structure CallbackEnv where
  openCookies : Except String Session
  saveCookies : Except String Unit
  oidc : OIDCClientEnv
  tokenReadErr : Option String
  tokenWriteErr : Option String
  provision : ProvisionEnv
  dashboardURL : String

/-- The callback request's query parameters as the handler reads them: an
absent `code` or `state` query parameter is read as the empty string. -/
structure CallbackReq where
  code : String
  state : String
deriving Repr, DecidableEq

/-- Result of one callback request: the HTTP response, the durable state
after the request, the provisioning steps that were executed (empty when
provisioning did not run), and the session saved into the cookie jar
(`none` when no save succeeded). -/
structure CallbackResult where
  resp : HTTPResponse
  world : World
  executed : List StepId
  savedSession : Option Session

/-- Modelled from the spec: persistence tail of the callback (spec section
4.2 steps 8 to 10; the handler's implementation is not among the available
sources). Persist the User Tokens record (with Bootstrap Data when newly
computed), write the subject into the session cookie, then redirect (302)
to the configured dashboard URL; either persistence failure is a 500. -/
def persistAndFinish (env : CallbackEnv) (w : World) (sub : String)
    (tok : OAuthTokens) (bootstrap : Option BootstrapData)
    (executed : List StepId) : CallbackResult :=
  match env.tokenWriteErr with
  | some e => ⟨⟨500, "failed to persist user tokens: " ++ e, none⟩, w, executed, none⟩
  | none =>
    let w₁ : World := { w with tokenStore := (sub, ⟨tok, bootstrap⟩) :: w.tokenStore }
    match env.saveCookies with
    | .error e => ⟨⟨500, "failed to persist session cookies: " ++ e, none⟩, w₁, executed, none⟩
    | .ok _ =>
      ⟨⟨302, "", some env.dashboardURL⟩, w₁, executed,
        some { state := none, nonce := none, userSub := some (.str sub) }⟩

/-- Modelled from the spec: the OIDC callback handler (spec section 4.2; the
implementation is not among the available sources). Open the session (open
failure is 500), require a stored state (else 400 "state not found"),
require the `state` parameter to equal the stored value and a nonempty
`code` (else 400), exchange the code (failure 502), verify the ID token
(failure 502), parse its claims (failure 500), look up the User Tokens
record (read failure 500), provision on first login (a step failure aborts
with 500 and the step's identifying phrase, spec sections 4.3 and 7), then
persist and redirect. -/
def oidcCallbackHandler (env : CallbackEnv) (w : World) (req : CallbackReq) :
    CallbackResult :=
  match env.openCookies with
  | .error e => ⟨⟨500, "failed to open session cookies: " ++ e, none⟩, w, [], none⟩
  | .ok session =>
  match session.state with
  | none => ⟨⟨400, "state not found", none⟩, w, [], none⟩
  | some stored =>
  if req.state ≠ stored then
    ⟨⟨400, "invalid state parameter", none⟩, w, [], none⟩
  else if req.code = "" then
    ⟨⟨400, "missing code parameter", none⟩, w, [], none⟩
  else
  match env.oidc.exchange with
  | .error e => ⟨⟨502, "failed to exchange oauth2 code for token: " ++ e, none⟩, w, [], none⟩
  | .ok tok =>
  match env.oidc.verifyIDToken with
  | .error e => ⟨⟨502, "failed to verify id_token: " ++ e, none⟩, w, [], none⟩
  | .ok _ =>
  match env.oidc.claims with
  | .error e => ⟨⟨500, "failed to parse id_token claims: " ++ e, none⟩, w, [], none⟩
  | .ok sub =>
  match env.tokenReadErr with
  | some e => ⟨⟨500, "failed to query user store: " ++ e, none⟩, w, [], none⟩
  | none =>
  match assocGet sub w.tokenStore with
  | some existing =>
      persistAndFinish env w sub tok existing.bootstrap []
  | none =>
      let out := provisionRun env.provision w.authServer sub
      match out.result with
      | .error se =>
          ⟨⟨500, se.1.phrase ++ ": " ++ se.2, none⟩, w, out.executed, none⟩
      | .ok data =>
          persistAndFinish env { w with authServer := out.authServer } sub tok
            (some data) out.executed

/-- Environment of one login request: cookie open/save oracles, the freshly
generated random state and nonce values, and the identity provider's
authorization-URL builder (spec section 4.1 and section 6,
`BuildAuthURL(state, nonce, scopes)`). -/
structure LoginEnv where
  openCookies : Except String Session
  saveCookies : Except String Unit
  freshState : String
  freshNonce : String
  authURL : String → String → String

/-- Modelled from the spec: the login-initiation handler (spec section 4.1;
the implementation is not among the available sources). Generate fresh
state and nonce, store them in the session, and redirect (302) to the
identity provider's authorization URL; if the cookie cannot be persisted,
respond 500 and do not redirect. The specification is silent about a
request whose session already holds a user identity: the repository's test
suite pins that case to 301 Moved Permanently with no fresh state/nonce
stored, and the model follows it. Returns the response and the session
saved into the cookie jar (`none` when no save succeeded). -/
def oidcLoginHandler (env : LoginEnv) : HTTPResponse × Option Session :=
  match env.openCookies with
  | .error e => (⟨500, "failed to open session cookies: " ++ e, none⟩, none)
  | .ok session =>
  match session.userSub with
  | some _ => (⟨301, "", none⟩, none)
  | none =>
    let session₁ : Session :=
      { session with state := some env.freshState, nonce := some env.freshNonce }
    match env.saveCookies with
    | .error e => (⟨500, "failed to persist session cookies: " ++ e, none⟩, none)
    | .ok _ =>
      (⟨302, "", some (env.authURL env.freshState env.freshNonce)⟩, some session₁)

/-- Environment of one profile-retrieval request: cookie open oracle,
User/Token store read-failure oracle, the identity provider's user-info
fetch and claims-extraction oracles, and the authorization server's
bootstrap-data fetch failure oracle (spec section 4.4). -/
structure ProfileEnv where
  openCookies : Except String Session
  tokenReadErr : Option String
  fetchUserInfo : Except String Unit
  extractClaims : Except String (List (String × String))
  bootstrapReadErr : Option String

/-- The profile payload returned on success: the merged user-info claims,
the subject, and the previously persisted Bootstrap Data
(spec section 4.4). -/
structure Profile where
  claims : List (String × String)
  sub : String
  bootstrap : BootstrapData
deriving Repr, DecidableEq

/-- Modelled from the spec: the profile-retrieval handler (spec section 4.4;
the implementation is not among the available sources). Resolve the subject
from the session cookie, load the User Tokens record, fetch user info from
the identity provider, extract its claims, fetch the persisted Bootstrap
Data from the authorization server (not recomputed), and return 200 with
the profile. Error mapping per spec section 4.4: missing user cookie 403
"not logged in", malformed (non-string) cookie value 500, store read
failure 500, upstream user-info failure 502, claims-extraction failure 500,
bootstrap-fetch failure 500. The specification is silent about a cookie jar
that cannot be opened: the repository's test suite pins that case to 400
"cannot open cookies", and the model follows it. -/
def userProfileHandler (env : ProfileEnv) (w : World) :
    HTTPResponse × Option Profile :=
  match env.openCookies with
  | .error e => (⟨400, "cannot open cookies: " ++ e, none⟩, none)
  | .ok session =>
  match session.userSub with
  | none => (⟨403, "not logged in", none⟩, none)
  | some .blob => (⟨500, "invalid user sub cookie format", none⟩, none)
  | some (.str sub) =>
  match env.tokenReadErr with
  | some e => (⟨500, "failed to fetch user tokens from store: " ++ e, none⟩, none)
  | none =>
  match assocGet sub w.tokenStore with
  | none => (⟨500, "failed to fetch user tokens from store: not found", none⟩, none)
  | some _record =>
  match env.fetchUserInfo with
  | .error e => (⟨502, "failed to fetch user info: " ++ e, none⟩, none)
  | .ok _ =>
  match env.extractClaims with
  | .error e => (⟨500, "failed to extract claims from user info: " ++ e, none⟩, none)
  | .ok claims =>
  match env.bootstrapReadErr with
  | some e => (⟨500, "failed to fetch bootstrap data: " ++ e, none⟩, none)
  | none =>
  match assocGet sub w.authServer with
  | none => (⟨500, "failed to fetch bootstrap data: not found", none⟩, none)
  | some data => (⟨200, "", none⟩, some ⟨claims, sub, data⟩)

/-- Environment of one logout request: cookie open and save oracles
(spec section 4.5). -/
structure LogoutEnv where
  openCookies : Except String Session
  saveCookies : Except String Unit

/-- Modelled from the spec: the logout handler (spec section 4.5; the
implementation is not among the available sources). Delete the session's
user-identity entry if present; a persistence failure on deletion is 500
"failed to delete user sub cookie"; absence of the entry is a no-op success
(200). The specification is silent about a cookie jar that cannot be
opened: the repository's test suite pins that case to 400 "cannot open
cookies", and the model follows it. Returns the response and the session
saved into the cookie jar (`none` when nothing was saved). -/
def userLogoutHandler (env : LogoutEnv) : HTTPResponse × Option Session :=
  match env.openCookies with
  | .error e => (⟨400, "cannot open cookies: " ++ e, none⟩, none)
  | .ok session =>
  match session.userSub with
  | none => (⟨200, "", none⟩, none)
  | some _ =>
  match env.saveCookies with
  | .error e => (⟨500, "failed to delete user sub cookie: " ++ e, none⟩, none)
  | .ok _ => (⟨200, "", none⟩, some { session with userSub := none })

/-- Decidable equality for `Except`, used to evaluate oracle outcomes on
concrete environments. -/
def exceptDecEq {ε α : Type} [DecidableEq ε] [DecidableEq α] :
    DecidableEq (Except ε α) := fun a b =>
  match a, b with
  | .error x, .error y =>
      if h : x = y then .isTrue (congrArg Except.error h)
      else .isFalse (fun hc => h (Except.error.inj hc))
  | .error _, .ok _ => .isFalse (fun hc => Except.noConfusion hc)
  | .ok _, .error _ => .isFalse (fun hc => Except.noConfusion hc)
  | .ok x, .ok y =>
      if h : x = y then .isTrue (congrArg Except.ok h)
      else .isFalse (fun hc => h (Except.ok.inj hc))

instance {ε α : Type} [DecidableEq ε] [DecidableEq α] : DecidableEq (Except ε α) :=
  exceptDecEq

/-- All provisioning steps in execution order. -/
def fullStepList : List StepId :=
  [.createAuthzKeystore, .createAuthzKey, .postSecretShare, .createKeyDataVault,
   .createEDVController, .createChainCapability, .createOperationalKeyStore,
   .createEDVOperationalKey, .createEDVHMACKey, .createUserEDVVault,
   .updateUserBootstrapData]

/-- A world with no persisted users and no bootstrap data. -/
def emptyWorld : World := ⟨[], []⟩

/-- Provisioning oracles where every external call succeeds. -/
def okProvision : ProvisionEnv where
  createAuthzKeystore := .ok "https://authz-kms/ks1"
  createAuthzKey := .ok "pubKey1"
  postSecretShare := .ok ()
  createKeyDataVault := .ok "https://edv/ops-vault"
  createEDVController := .ok "did:key:ctrl"
  createChainCapability := .ok "chainCap"
  createOperationalKeyStore := .ok "https://ops-kms/ks2"
  createEDVOperationalKey := .ok "opsKeyID"
  createEDVHMACKey := .ok "hmacKeyID"
  createUserEDVVault := .ok ("https://edv/user-vault", "userCap")
  updateUserBootstrapData := .ok ()

/-- Provisioning oracles where step 5, the operational key store creation,
fails (the spec's concrete fail-fast scenario in section 8). -/
def provFailAtOpsKeystore : ProvisionEnv :=
  { okProvision with createOperationalKeyStore := .error "boom" }

/-- Identity-provider oracles where every call succeeds and the resolved
subject is `U1`. -/
def okOIDC : OIDCClientEnv where
  exchange := .ok ⟨"AT", "RT", "Bearer"⟩
  verifyIDToken := .ok ()
  claims := .ok "U1"

/-- A session holding a stored login state `S1` and no logged-in user. -/
def baseSession : Session := ⟨some "S1", some "N1", none⟩

/-- Callback environment in which every collaborator call succeeds. -/
def cbEnvOk : CallbackEnv where
  openCookies := .ok baseSession
  saveCookies := .ok ()
  oidc := okOIDC
  tokenReadErr := none
  tokenWriteErr := none
  provision := okProvision
  dashboardURL := "http://test.com/dashboard"

/-- Callback environment in which provisioning step 5 fails. -/
def cbEnvStep5Fail : CallbackEnv := { cbEnvOk with provision := provFailAtOpsKeystore }

/-- Callback environment in which the session cookie jar cannot be opened. -/
def cbEnvBadCookies : CallbackEnv := { cbEnvOk with openCookies := .error "test" }

/-- Callback environment in which the session holds no stored state. -/
def cbEnvNoState : CallbackEnv := { cbEnvOk with openCookies := .ok ⟨none, none, none⟩ }

/-- Callback environment in which the code-for-token exchange fails. -/
def cbEnvExchFail : CallbackEnv :=
  { cbEnvOk with oidc := { okOIDC with exchange := .error "bad code" } }

/-- The callback request of the spec's concrete scenario: `code=C1`,
`state=S1`. -/
def cbReq : CallbackReq := ⟨"C1", "S1"⟩

/-- Bootstrap Data fixture used by the profile-retrieval scenarios. -/
def dataA : BootstrapData :=
  ⟨"https://authz-kms/a", "https://ops-kms/b", "https://edv/c", "kidD", "kidE",
   "https://edv/f", "capG"⟩

/-- A world in which subject `U1` is fully provisioned. -/
def worldU1 : World :=
  ⟨[("U1", ⟨⟨"AT", "RT", "Bearer"⟩, some dataA⟩)], [("U1", dataA)]⟩

/-- A session in which subject `U1` is logged in. -/
def profSession : Session := ⟨none, none, some (.str "U1")⟩

/-- Profile environment in which every collaborator call succeeds for the
logged-in subject `U1`. -/
def profEnvOk : ProfileEnv where
  openCookies := .ok profSession
  tokenReadErr := none
  fetchUserInfo := .ok ()
  extractClaims := .ok [("email", "u1@example.com")]
  bootstrapReadErr := none

/-- Profile environment in which the session cookie jar cannot be opened. -/
def profEnvBadCookies : ProfileEnv := { profEnvOk with openCookies := .error "test" }

/-- Logout environment with no logged-in user. -/
def logoutEnvNoUser : LogoutEnv := ⟨.ok ⟨none, none, none⟩, .ok ()⟩

/-- Logout environment with a logged-in user and a working cookie jar. -/
def logoutEnvUser : LogoutEnv := ⟨.ok profSession, .ok ()⟩

/-- Logout environment in which saving the cleared cookie fails. -/
def logoutEnvSaveFail : LogoutEnv := ⟨.ok profSession, .error "test"⟩

/-- Logout environment in which the session cookie jar cannot be opened. -/
def logoutEnvBadCookies : LogoutEnv := ⟨.error "test", .ok ()⟩

/-- Login environment with no logged-in user and a working cookie jar. -/
def loginEnvOk : LoginEnv where
  openCookies := .ok ⟨none, none, none⟩
  saveCookies := .ok ()
  freshState := "S2"
  freshNonce := "N2"
  authURL := fun s n => "https://op/authorize?state=" ++ s ++ "&nonce=" ++ n

/-- Login environment whose session already holds a logged-in user; the
cookie jar works, so the cookie could be persisted. -/
def loginEnvLoggedIn : LoginEnv := { loginEnvOk with openCookies := .ok profSession }

/-- Login environment in which persisting the cookie fails. -/
def loginEnvSaveFail : LoginEnv := { loginEnvOk with saveCookies := .error "test" }

theorem exceptMap_ok {α β : Type} {e : Except String α} {f : α → β} {u : β}
    (h : e.map f = .ok u) : ∃ v, e = .ok v := by
  cases e <;> simp [Except.map] at h ⊢

theorem exceptMap_error {α β : Type} {e : Except String α} {f : α → β} {c : String}
    (h : e.map f = .error c) : e = .error c := by
  cases e <;> simp [Except.map] at h ⊢
  exact h

theorem strContains_wrap (p q r : String) : strContains p (p ++ q ++ r) :=
  ⟨"", q ++ r, by rw [String.append_assoc]; rfl⟩

theorem strContains_self (p : String) : strContains p p :=
  ⟨"", "", by simp⟩

theorem stepsAllOk (env : ProvisionEnv) (h : ∀ j : StepId, stepRes env j = .ok ()) :
    ∃ v0 v1 v3 v4 v5 v6 v7 v8 p9,
      env.createAuthzKeystore = .ok v0 ∧ env.createAuthzKey = .ok v1 ∧
      env.postSecretShare = .ok () ∧ env.createKeyDataVault = .ok v3 ∧
      env.createEDVController = .ok v4 ∧ env.createChainCapability = .ok v5 ∧
      env.createOperationalKeyStore = .ok v6 ∧ env.createEDVOperationalKey = .ok v7 ∧
      env.createEDVHMACKey = .ok v8 ∧ env.createUserEDVVault = .ok p9 ∧
      env.updateUserBootstrapData = .ok () := by
  have e0 : env.createAuthzKeystore.map (fun _ => ()) = .ok () := h .createAuthzKeystore
  have e1 : env.createAuthzKey.map (fun _ => ()) = .ok () := h .createAuthzKey
  have e2 : env.postSecretShare = .ok () := h .postSecretShare
  have e3 : env.createKeyDataVault.map (fun _ => ()) = .ok () := h .createKeyDataVault
  have e4 : env.createEDVController.map (fun _ => ()) = .ok () := h .createEDVController
  have e5 : env.createChainCapability.map (fun _ => ()) = .ok () := h .createChainCapability
  have e6 : env.createOperationalKeyStore.map (fun _ => ()) = .ok () :=
    h .createOperationalKeyStore
  have e7 : env.createEDVOperationalKey.map (fun _ => ()) = .ok () :=
    h .createEDVOperationalKey
  have e8 : env.createEDVHMACKey.map (fun _ => ()) = .ok () := h .createEDVHMACKey
  have e9 : env.createUserEDVVault.map (fun _ => ()) = .ok () := h .createUserEDVVault
  have e10 : env.updateUserBootstrapData = .ok () := h .updateUserBootstrapData
  obtain ⟨v0, h0⟩ := exceptMap_ok e0
  obtain ⟨v1, h1⟩ := exceptMap_ok e1
  obtain ⟨v3, h3⟩ := exceptMap_ok e3
  obtain ⟨v4, h4⟩ := exceptMap_ok e4
  obtain ⟨v5, h5⟩ := exceptMap_ok e5
  obtain ⟨v6, h6⟩ := exceptMap_ok e6
  obtain ⟨v7, h7⟩ := exceptMap_ok e7
  obtain ⟨v8, h8⟩ := exceptMap_ok e8
  obtain ⟨p9, h9⟩ := exceptMap_ok e9
  exact ⟨v0, v1, v3, v4, v5, v6, v7, v8, p9,
    h0, h1, e2, h3, h4, h5, h6, h7, h8, h9, e10⟩

theorem provisionRun_ok (env : ProvisionEnv) (asrv : List (String × BootstrapData))
    (sub : String) (v0 v1 v3 v4 v5 v6 v7 v8 : String) (p9 : String × String)
    (h0 : env.createAuthzKeystore = .ok v0) (h1 : env.createAuthzKey = .ok v1)
    (h2 : env.postSecretShare = .ok ()) (h3 : env.createKeyDataVault = .ok v3)
    (h4 : env.createEDVController = .ok v4) (h5 : env.createChainCapability = .ok v5)
    (h6 : env.createOperationalKeyStore = .ok v6)
    (h7 : env.createEDVOperationalKey = .ok v7)
    (h8 : env.createEDVHMACKey = .ok v8)
    (h9 : env.createUserEDVVault = .ok p9)
    (h10 : env.updateUserBootstrapData = .ok ()) :
    provisionRun env asrv sub =
      ⟨.ok ⟨v0, v6, v3, v7, v8, p9.1, p9.2⟩,
       (sub, ⟨v0, v6, v3, v7, v8, p9.1, p9.2⟩) :: asrv, fullStepList⟩ := by
  simp [provisionRun, fullStepList, h0, h1, h2, h3, h4, h5, h6, h7, h8, h9, h10]

/-- C2: for a callback whose `state` equals the stored value, whose `code`
the identity provider accepts, whose resolved subject has no User/Token
record, and for which every provisioning step and the subsequent
persistence succeed, the handler responds 302 with the Location header
equal to the configured dashboard URL. -/
theorem callback_success_redirects
    (env : CallbackEnv) (w : World) (req : CallbackReq)
    (session : Session) (stored sub : String) (tok : OAuthTokens)
    (hopen : env.openCookies = .ok session)
    (hstored : session.state = some stored)
    (hstate : req.state = stored)
    (hcode : req.code ≠ "")
    (hexch : env.oidc.exchange = .ok tok)
    (hverify : env.oidc.verifyIDToken = .ok ())
    (hclaims : env.oidc.claims = .ok sub)
    (hread : env.tokenReadErr = none)
    (hnew : assocGet sub w.tokenStore = none)
    (hsteps : ∀ j : StepId, stepRes env.provision j = .ok ())
    (hwrite : env.tokenWriteErr = none)
    (hsave : env.saveCookies = .ok ()) :
    (oidcCallbackHandler env w req).resp.status = 302 ∧
    (oidcCallbackHandler env w req).resp.location = some env.dashboardURL := by
  obtain ⟨v0, v1, v3, v4, v5, v6, v7, v8, p9, h0, h1, h2, h3, h4, h5, h6, h7, h8, h9, h10⟩ :=
    stepsAllOk env.provision hsteps
  have hrun := provisionRun_ok env.provision w.authServer sub v0 v1 v3 v4 v5 v6 v7 v8 p9
    h0 h1 h2 h3 h4 h5 h6 h7 h8 h9 h10
  constructor <;>
    simp [oidcCallbackHandler, persistAndFinish, hopen, hstored, hstate, hcode, hexch,
      hverify, hclaims, hread, hnew, hrun, hwrite, hsave]

/-- C2 witness: the concrete scenario `state=S1` stored, callback with
`code=C1, state=S1`, new subject `U1`, all steps succeeding, redirects to
the configured dashboard URL. -/
theorem callback_success_redirects_witness :
    (oidcCallbackHandler cbEnvOk emptyWorld cbReq).resp.status = 302 ∧
    (oidcCallbackHandler cbEnvOk emptyWorld cbReq).resp.location =
      some cbEnvOk.dashboardURL :=
  callback_success_redirects cbEnvOk emptyWorld cbReq baseSession "S1" "U1"
    ⟨"AT", "RT", "Bearer"⟩ rfl rfl rfl (by decide) rfl rfl rfl rfl rfl
    (by decide) rfl rfl

/-- C1: for every first-login callback in which some provisioning step
fails (all earlier steps succeeding), the handler responds 500 with a body
containing that step's identifying phrase, no later step is executed, and
nothing is persisted: the world (User/Token store and authorization server)
is unchanged, so no Bootstrap Data is persisted. -/
theorem callback_provisioning_fail_fast
    (env : CallbackEnv) (w : World) (req : CallbackReq)
    (session : Session) (stored sub : String) (tok : OAuthTokens)
    (k : StepId) (cause : String)
    (hopen : env.openCookies = .ok session)
    (hstored : session.state = some stored)
    (hstate : req.state = stored)
    (hcode : req.code ≠ "")
    (hexch : env.oidc.exchange = .ok tok)
    (hverify : env.oidc.verifyIDToken = .ok ())
    (hclaims : env.oidc.claims = .ok sub)
    (hread : env.tokenReadErr = none)
    (hnew : assocGet sub w.tokenStore = none)
    (hfail : stepRes env.provision k = .error cause)
    (hearlier : ∀ j : StepId, j.idx < k.idx → stepRes env.provision j = .ok ()) :
    (oidcCallbackHandler env w req).resp.status = 500 ∧
    strContains k.phrase (oidcCallbackHandler env w req).resp.body ∧
    (oidcCallbackHandler env w req).world = w ∧
    ∀ j : StepId, k.idx < j.idx → j ∉ (oidcCallbackHandler env w req).executed := by
  cases k with
  | createAuthzKeystore =>
    have hf : env.provision.createAuthzKeystore.map (fun _ => ()) = .error cause := hfail
    have hk := exceptMap_error hf
    have hrun : provisionRun env.provision w.authServer sub =
        ⟨.error (.createAuthzKeystore, cause), w.authServer, [.createAuthzKeystore]⟩ := by
      simp [provisionRun, hk]
    have hout : oidcCallbackHandler env w req =
        ⟨⟨500, StepId.phrase .createAuthzKeystore ++ ": " ++ cause, none⟩, w,
         [.createAuthzKeystore], none⟩ := by
      simp [oidcCallbackHandler, hopen, hstored, hstate, hcode, hexch, hverify, hclaims,
        hread, hnew, hrun]
    rw [hout]
    refine ⟨rfl, strContains_wrap _ _ _, rfl, ?_⟩
    intro j hj hmem
    fin_cases hmem <;> simp only [StepId.idx] at hj <;> exact absurd hj (by decide)
  | createAuthzKey =>
    have a0 : env.provision.createAuthzKeystore.map (fun _ => ()) = .ok () :=
      hearlier .createAuthzKeystore (by decide)
    obtain ⟨v0, h0⟩ := exceptMap_ok a0
    have hf : env.provision.createAuthzKey.map (fun _ => ()) = .error cause := hfail
    have hk := exceptMap_error hf
    have hrun : provisionRun env.provision w.authServer sub =
        ⟨.error (.createAuthzKey, cause), w.authServer,
         [.createAuthzKeystore, .createAuthzKey]⟩ := by
      simp [provisionRun, h0, hk]
    have hout : oidcCallbackHandler env w req =
        ⟨⟨500, StepId.phrase .createAuthzKey ++ ": " ++ cause, none⟩, w,
         [.createAuthzKeystore, .createAuthzKey], none⟩ := by
      simp [oidcCallbackHandler, hopen, hstored, hstate, hcode, hexch, hverify, hclaims,
        hread, hnew, hrun]
    rw [hout]
    refine ⟨rfl, strContains_wrap _ _ _, rfl, ?_⟩
    intro j hj hmem
    fin_cases hmem <;> simp only [StepId.idx] at hj <;> exact absurd hj (by decide)
  | postSecretShare =>
    have a0 : env.provision.createAuthzKeystore.map (fun _ => ()) = .ok () :=
      hearlier .createAuthzKeystore (by decide)
    obtain ⟨v0, h0⟩ := exceptMap_ok a0
    have a1 : env.provision.createAuthzKey.map (fun _ => ()) = .ok () :=
      hearlier .createAuthzKey (by decide)
    obtain ⟨v1, h1⟩ := exceptMap_ok a1
    have hk : env.provision.postSecretShare = .error cause := hfail
    have hrun : provisionRun env.provision w.authServer sub =
        ⟨.error (.postSecretShare, cause), w.authServer,
         [.createAuthzKeystore, .createAuthzKey, .postSecretShare]⟩ := by
      simp [provisionRun, h0, h1, hk]
    have hout : oidcCallbackHandler env w req =
        ⟨⟨500, StepId.phrase .postSecretShare ++ ": " ++ cause, none⟩, w,
         [.createAuthzKeystore, .createAuthzKey, .postSecretShare], none⟩ := by
      simp [oidcCallbackHandler, hopen, hstored, hstate, hcode, hexch, hverify, hclaims,
        hread, hnew, hrun]
    rw [hout]
    refine ⟨rfl, strContains_wrap _ _ _, rfl, ?_⟩
    intro j hj hmem
    fin_cases hmem <;> simp only [StepId.idx] at hj <;> exact absurd hj (by decide)
  | createKeyDataVault =>
    have a0 : env.provision.createAuthzKeystore.map (fun _ => ()) = .ok () :=
      hearlier .createAuthzKeystore (by decide)
    obtain ⟨v0, h0⟩ := exceptMap_ok a0
    have a1 : env.provision.createAuthzKey.map (fun _ => ()) = .ok () :=
      hearlier .createAuthzKey (by decide)
    obtain ⟨v1, h1⟩ := exceptMap_ok a1
    have h2 : env.provision.postSecretShare = .ok () := hearlier .postSecretShare (by decide)
    have hf : env.provision.createKeyDataVault.map (fun _ => ()) = .error cause := hfail
    have hk := exceptMap_error hf
    have hrun : provisionRun env.provision w.authServer sub =
        ⟨.error (.createKeyDataVault, cause), w.authServer,
         [.createAuthzKeystore, .createAuthzKey, .postSecretShare, .createKeyDataVault]⟩ := by
      simp [provisionRun, h0, h1, h2, hk]
    have hout : oidcCallbackHandler env w req =
        ⟨⟨500, StepId.phrase .createKeyDataVault ++ ": " ++ cause, none⟩, w,
         [.createAuthzKeystore, .createAuthzKey, .postSecretShare, .createKeyDataVault],
         none⟩ := by
      simp [oidcCallbackHandler, hopen, hstored, hstate, hcode, hexch, hverify, hclaims,
        hread, hnew, hrun]
    rw [hout]
    refine ⟨rfl, strContains_wrap _ _ _, rfl, ?_⟩
    intro j hj hmem
    fin_cases hmem <;> simp only [StepId.idx] at hj <;> exact absurd hj (by decide)
  | createEDVController =>
    have a0 : env.provision.createAuthzKeystore.map (fun _ => ()) = .ok () :=
      hearlier .createAuthzKeystore (by decide)
    obtain ⟨v0, h0⟩ := exceptMap_ok a0
    have a1 : env.provision.createAuthzKey.map (fun _ => ()) = .ok () :=
      hearlier .createAuthzKey (by decide)
    obtain ⟨v1, h1⟩ := exceptMap_ok a1
    have h2 : env.provision.postSecretShare = .ok () := hearlier .postSecretShare (by decide)
    have a3 : env.provision.createKeyDataVault.map (fun _ => ()) = .ok () :=
      hearlier .createKeyDataVault (by decide)
    obtain ⟨v3, h3⟩ := exceptMap_ok a3
    have hf : env.provision.createEDVController.map (fun _ => ()) = .error cause := hfail
    have hk := exceptMap_error hf
    have hrun : provisionRun env.provision w.authServer sub =
        ⟨.error (.createEDVController, cause), w.authServer,
         [.createAuthzKeystore, .createAuthzKey, .postSecretShare, .createKeyDataVault,
          .createEDVController]⟩ := by
      simp [provisionRun, h0, h1, h2, h3, hk]
    have hout : oidcCallbackHandler env w req =
        ⟨⟨500, StepId.phrase .createEDVController ++ ": " ++ cause, none⟩, w,
         [.createAuthzKeystore, .createAuthzKey, .postSecretShare, .createKeyDataVault,
          .createEDVController], none⟩ := by
      simp [oidcCallbackHandler, hopen, hstored, hstate, hcode, hexch, hverify, hclaims,
        hread, hnew, hrun]
    rw [hout]
    refine ⟨rfl, strContains_wrap _ _ _, rfl, ?_⟩
    intro j hj hmem
    fin_cases hmem <;> simp only [StepId.idx] at hj <;> exact absurd hj (by decide)
  | createChainCapability =>
    have a0 : env.provision.createAuthzKeystore.map (fun _ => ()) = .ok () :=
      hearlier .createAuthzKeystore (by decide)
    obtain ⟨v0, h0⟩ := exceptMap_ok a0
    have a1 : env.provision.createAuthzKey.map (fun _ => ()) = .ok () :=
      hearlier .createAuthzKey (by decide)
    obtain ⟨v1, h1⟩ := exceptMap_ok a1
    have h2 : env.provision.postSecretShare = .ok () := hearlier .postSecretShare (by decide)
    have a3 : env.provision.createKeyDataVault.map (fun _ => ()) = .ok () :=
      hearlier .createKeyDataVault (by decide)
    obtain ⟨v3, h3⟩ := exceptMap_ok a3
    have a4 : env.provision.createEDVController.map (fun _ => ()) = .ok () :=
      hearlier .createEDVController (by decide)
    obtain ⟨v4, h4⟩ := exceptMap_ok a4
    have hf : env.provision.createChainCapability.map (fun _ => ()) = .error cause := hfail
    have hk := exceptMap_error hf
    have hrun : provisionRun env.provision w.authServer sub =
        ⟨.error (.createChainCapability, cause), w.authServer,
         [.createAuthzKeystore, .createAuthzKey, .postSecretShare, .createKeyDataVault,
          .createEDVController, .createChainCapability]⟩ := by
      simp [provisionRun, h0, h1, h2, h3, h4, hk]
    have hout : oidcCallbackHandler env w req =
        ⟨⟨500, StepId.phrase .createChainCapability ++ ": " ++ cause, none⟩, w,
         [.createAuthzKeystore, .createAuthzKey, .postSecretShare, .createKeyDataVault,
          .createEDVController, .createChainCapability], none⟩ := by
      simp [oidcCallbackHandler, hopen, hstored, hstate, hcode, hexch, hverify, hclaims,
        hread, hnew, hrun]
    rw [hout]
    refine ⟨rfl, strContains_wrap _ _ _, rfl, ?_⟩
    intro j hj hmem
    fin_cases hmem <;> simp only [StepId.idx] at hj <;> exact absurd hj (by decide)
  | createOperationalKeyStore =>
    have a0 : env.provision.createAuthzKeystore.map (fun _ => ()) = .ok () :=
      hearlier .createAuthzKeystore (by decide)
    obtain ⟨v0, h0⟩ := exceptMap_ok a0
    have a1 : env.provision.createAuthzKey.map (fun _ => ()) = .ok () :=
      hearlier .createAuthzKey (by decide)
    obtain ⟨v1, h1⟩ := exceptMap_ok a1
    have h2 : env.provision.postSecretShare = .ok () := hearlier .postSecretShare (by decide)
    have a3 : env.provision.createKeyDataVault.map (fun _ => ()) = .ok () :=
      hearlier .createKeyDataVault (by decide)
    obtain ⟨v3, h3⟩ := exceptMap_ok a3
    have a4 : env.provision.createEDVController.map (fun _ => ()) = .ok () :=
      hearlier .createEDVController (by decide)
    obtain ⟨v4, h4⟩ := exceptMap_ok a4
    have a5 : env.provision.createChainCapability.map (fun _ => ()) = .ok () :=
      hearlier .createChainCapability (by decide)
    obtain ⟨v5, h5⟩ := exceptMap_ok a5
    have hf : env.provision.createOperationalKeyStore.map (fun _ => ()) = .error cause := hfail
    have hk := exceptMap_error hf
    have hrun : provisionRun env.provision w.authServer sub =
        ⟨.error (.createOperationalKeyStore, cause), w.authServer,
         [.createAuthzKeystore, .createAuthzKey, .postSecretShare, .createKeyDataVault,
          .createEDVController, .createChainCapability, .createOperationalKeyStore]⟩ := by
      simp [provisionRun, h0, h1, h2, h3, h4, h5, hk]
    have hout : oidcCallbackHandler env w req =
        ⟨⟨500, StepId.phrase .createOperationalKeyStore ++ ": " ++ cause, none⟩, w,
         [.createAuthzKeystore, .createAuthzKey, .postSecretShare, .createKeyDataVault,
          .createEDVController, .createChainCapability, .createOperationalKeyStore],
         none⟩ := by
      simp [oidcCallbackHandler, hopen, hstored, hstate, hcode, hexch, hverify, hclaims,
        hread, hnew, hrun]
    rw [hout]
    refine ⟨rfl, strContains_wrap _ _ _, rfl, ?_⟩
    intro j hj hmem
    fin_cases hmem <;> simp only [StepId.idx] at hj <;> exact absurd hj (by decide)
  | createEDVOperationalKey =>
    have a0 : env.provision.createAuthzKeystore.map (fun _ => ()) = .ok () :=
      hearlier .createAuthzKeystore (by decide)
    obtain ⟨v0, h0⟩ := exceptMap_ok a0
    have a1 : env.provision.createAuthzKey.map (fun _ => ()) = .ok () :=
      hearlier .createAuthzKey (by decide)
    obtain ⟨v1, h1⟩ := exceptMap_ok a1
    have h2 : env.provision.postSecretShare = .ok () := hearlier .postSecretShare (by decide)
    have a3 : env.provision.createKeyDataVault.map (fun _ => ()) = .ok () :=
      hearlier .createKeyDataVault (by decide)
    obtain ⟨v3, h3⟩ := exceptMap_ok a3
    have a4 : env.provision.createEDVController.map (fun _ => ()) = .ok () :=
      hearlier .createEDVController (by decide)
    obtain ⟨v4, h4⟩ := exceptMap_ok a4
    have a5 : env.provision.createChainCapability.map (fun _ => ()) = .ok () :=
      hearlier .createChainCapability (by decide)
    obtain ⟨v5, h5⟩ := exceptMap_ok a5
    have a6 : env.provision.createOperationalKeyStore.map (fun _ => ()) = .ok () :=
      hearlier .createOperationalKeyStore (by decide)
    obtain ⟨v6, h6⟩ := exceptMap_ok a6
    have hf : env.provision.createEDVOperationalKey.map (fun _ => ()) = .error cause := hfail
    have hk := exceptMap_error hf
    have hrun : provisionRun env.provision w.authServer sub =
        ⟨.error (.createEDVOperationalKey, cause), w.authServer,
         [.createAuthzKeystore, .createAuthzKey, .postSecretShare, .createKeyDataVault,
          .createEDVController, .createChainCapability, .createOperationalKeyStore,
          .createEDVOperationalKey]⟩ := by
      simp [provisionRun, h0, h1, h2, h3, h4, h5, h6, hk]
    have hout : oidcCallbackHandler env w req =
        ⟨⟨500, StepId.phrase .createEDVOperationalKey ++ ": " ++ cause, none⟩, w,
         [.createAuthzKeystore, .createAuthzKey, .postSecretShare, .createKeyDataVault,
          .createEDVController, .createChainCapability, .createOperationalKeyStore,
          .createEDVOperationalKey], none⟩ := by
      simp [oidcCallbackHandler, hopen, hstored, hstate, hcode, hexch, hverify, hclaims,
        hread, hnew, hrun]
    rw [hout]
    refine ⟨rfl, strContains_wrap _ _ _, rfl, ?_⟩
    intro j hj hmem
    fin_cases hmem <;> simp only [StepId.idx] at hj <;> exact absurd hj (by decide)
  | createEDVHMACKey =>
    have a0 : env.provision.createAuthzKeystore.map (fun _ => ()) = .ok () :=
      hearlier .createAuthzKeystore (by decide)
    obtain ⟨v0, h0⟩ := exceptMap_ok a0
    have a1 : env.provision.createAuthzKey.map (fun _ => ()) = .ok () :=
      hearlier .createAuthzKey (by decide)
    obtain ⟨v1, h1⟩ := exceptMap_ok a1
    have h2 : env.provision.postSecretShare = .ok () := hearlier .postSecretShare (by decide)
    have a3 : env.provision.createKeyDataVault.map (fun _ => ()) = .ok () :=
      hearlier .createKeyDataVault (by decide)
    obtain ⟨v3, h3⟩ := exceptMap_ok a3
    have a4 : env.provision.createEDVController.map (fun _ => ()) = .ok () :=
      hearlier .createEDVController (by decide)
    obtain ⟨v4, h4⟩ := exceptMap_ok a4
    have a5 : env.provision.createChainCapability.map (fun _ => ()) = .ok () :=
      hearlier .createChainCapability (by decide)
    obtain ⟨v5, h5⟩ := exceptMap_ok a5
    have a6 : env.provision.createOperationalKeyStore.map (fun _ => ()) = .ok () :=
      hearlier .createOperationalKeyStore (by decide)
    obtain ⟨v6, h6⟩ := exceptMap_ok a6
    have a7 : env.provision.createEDVOperationalKey.map (fun _ => ()) = .ok () :=
      hearlier .createEDVOperationalKey (by decide)
    obtain ⟨v7, h7⟩ := exceptMap_ok a7
    have hf : env.provision.createEDVHMACKey.map (fun _ => ()) = .error cause := hfail
    have hk := exceptMap_error hf
    have hrun : provisionRun env.provision w.authServer sub =
        ⟨.error (.createEDVHMACKey, cause), w.authServer,
         [.createAuthzKeystore, .createAuthzKey, .postSecretShare, .createKeyDataVault,
          .createEDVController, .createChainCapability, .createOperationalKeyStore,
          .createEDVOperationalKey, .createEDVHMACKey]⟩ := by
      simp [provisionRun, h0, h1, h2, h3, h4, h5, h6, h7, hk]
    have hout : oidcCallbackHandler env w req =
        ⟨⟨500, StepId.phrase .createEDVHMACKey ++ ": " ++ cause, none⟩, w,
         [.createAuthzKeystore, .createAuthzKey, .postSecretShare, .createKeyDataVault,
          .createEDVController, .createChainCapability, .createOperationalKeyStore,
          .createEDVOperationalKey, .createEDVHMACKey], none⟩ := by
      simp [oidcCallbackHandler, hopen, hstored, hstate, hcode, hexch, hverify, hclaims,
        hread, hnew, hrun]
    rw [hout]
    refine ⟨rfl, strContains_wrap _ _ _, rfl, ?_⟩
    intro j hj hmem
    fin_cases hmem <;> simp only [StepId.idx] at hj <;> exact absurd hj (by decide)
  | createUserEDVVault =>
    have a0 : env.provision.createAuthzKeystore.map (fun _ => ()) = .ok () :=
      hearlier .createAuthzKeystore (by decide)
    obtain ⟨v0, h0⟩ := exceptMap_ok a0
    have a1 : env.provision.createAuthzKey.map (fun _ => ()) = .ok () :=
      hearlier .createAuthzKey (by decide)
    obtain ⟨v1, h1⟩ := exceptMap_ok a1
    have h2 : env.provision.postSecretShare = .ok () := hearlier .postSecretShare (by decide)
    have a3 : env.provision.createKeyDataVault.map (fun _ => ()) = .ok () :=
      hearlier .createKeyDataVault (by decide)
    obtain ⟨v3, h3⟩ := exceptMap_ok a3
    have a4 : env.provision.createEDVController.map (fun _ => ()) = .ok () :=
      hearlier .createEDVController (by decide)
    obtain ⟨v4, h4⟩ := exceptMap_ok a4
    have a5 : env.provision.createChainCapability.map (fun _ => ()) = .ok () :=
      hearlier .createChainCapability (by decide)
    obtain ⟨v5, h5⟩ := exceptMap_ok a5
    have a6 : env.provision.createOperationalKeyStore.map (fun _ => ()) = .ok () :=
      hearlier .createOperationalKeyStore (by decide)
    obtain ⟨v6, h6⟩ := exceptMap_ok a6
    have a7 : env.provision.createEDVOperationalKey.map (fun _ => ()) = .ok () :=
      hearlier .createEDVOperationalKey (by decide)
    obtain ⟨v7, h7⟩ := exceptMap_ok a7
    have a8 : env.provision.createEDVHMACKey.map (fun _ => ()) = .ok () :=
      hearlier .createEDVHMACKey (by decide)
    obtain ⟨v8, h8⟩ := exceptMap_ok a8
    have hf : env.provision.createUserEDVVault.map (fun _ => ()) = .error cause := hfail
    have hk := exceptMap_error hf
    have hrun : provisionRun env.provision w.authServer sub =
        ⟨.error (.createUserEDVVault, cause), w.authServer,
         [.createAuthzKeystore, .createAuthzKey, .postSecretShare, .createKeyDataVault,
          .createEDVController, .createChainCapability, .createOperationalKeyStore,
          .createEDVOperationalKey, .createEDVHMACKey, .createUserEDVVault]⟩ := by
      simp [provisionRun, h0, h1, h2, h3, h4, h5, h6, h7, h8, hk]
    have hout : oidcCallbackHandler env w req =
        ⟨⟨500, StepId.phrase .createUserEDVVault ++ ": " ++ cause, none⟩, w,
         [.createAuthzKeystore, .createAuthzKey, .postSecretShare, .createKeyDataVault,
          .createEDVController, .createChainCapability, .createOperationalKeyStore,
          .createEDVOperationalKey, .createEDVHMACKey, .createUserEDVVault], none⟩ := by
      simp [oidcCallbackHandler, hopen, hstored, hstate, hcode, hexch, hverify, hclaims,
        hread, hnew, hrun]
    rw [hout]
    refine ⟨rfl, strContains_wrap _ _ _, rfl, ?_⟩
    intro j hj hmem
    fin_cases hmem <;> simp only [StepId.idx] at hj <;> exact absurd hj (by decide)
  | updateUserBootstrapData =>
    have a0 : env.provision.createAuthzKeystore.map (fun _ => ()) = .ok () :=
      hearlier .createAuthzKeystore (by decide)
    obtain ⟨v0, h0⟩ := exceptMap_ok a0
    have a1 : env.provision.createAuthzKey.map (fun _ => ()) = .ok () :=
      hearlier .createAuthzKey (by decide)
    obtain ⟨v1, h1⟩ := exceptMap_ok a1
    have h2 : env.provision.postSecretShare = .ok () := hearlier .postSecretShare (by decide)
    have a3 : env.provision.createKeyDataVault.map (fun _ => ()) = .ok () :=
      hearlier .createKeyDataVault (by decide)
    obtain ⟨v3, h3⟩ := exceptMap_ok a3
    have a4 : env.provision.createEDVController.map (fun _ => ()) = .ok () :=
      hearlier .createEDVController (by decide)
    obtain ⟨v4, h4⟩ := exceptMap_ok a4
    have a5 : env.provision.createChainCapability.map (fun _ => ()) = .ok () :=
      hearlier .createChainCapability (by decide)
    obtain ⟨v5, h5⟩ := exceptMap_ok a5
    have a6 : env.provision.createOperationalKeyStore.map (fun _ => ()) = .ok () :=
      hearlier .createOperationalKeyStore (by decide)
    obtain ⟨v6, h6⟩ := exceptMap_ok a6
    have a7 : env.provision.createEDVOperationalKey.map (fun _ => ()) = .ok () :=
      hearlier .createEDVOperationalKey (by decide)
    obtain ⟨v7, h7⟩ := exceptMap_ok a7
    have a8 : env.provision.createEDVHMACKey.map (fun _ => ()) = .ok () :=
      hearlier .createEDVHMACKey (by decide)
    obtain ⟨v8, h8⟩ := exceptMap_ok a8
    have a9 : env.provision.createUserEDVVault.map (fun _ => ()) = .ok () :=
      hearlier .createUserEDVVault (by decide)
    obtain ⟨p9, h9⟩ := exceptMap_ok a9
    have hk : env.provision.updateUserBootstrapData = .error cause := hfail
    have hrun : provisionRun env.provision w.authServer sub =
        ⟨.error (.updateUserBootstrapData, cause), w.authServer, fullStepList⟩ := by
      simp [provisionRun, fullStepList, h0, h1, h2, h3, h4, h5, h6, h7, h8, h9, hk]
    have hout : oidcCallbackHandler env w req =
        ⟨⟨500, StepId.phrase .updateUserBootstrapData ++ ": " ++ cause, none⟩, w,
         fullStepList, none⟩ := by
      simp [oidcCallbackHandler, hopen, hstored, hstate, hcode, hexch, hverify, hclaims,
        hread, hnew, hrun]
    rw [hout]
    refine ⟨rfl, strContains_wrap _ _ _, rfl, ?_⟩
    intro j hj hmem
    fin_cases hmem <;> simp only [StepId.idx] at hj <;> exact absurd hj (by decide)

/-- C1 witness: with provisioning step 5 (operational key store creation)
failing, the concrete callback responds 500, the body contains
"create operational key store", the world is unchanged, and a later step
(posting bootstrap data) was not executed. -/
theorem callback_provisioning_fail_fast_witness :
    (oidcCallbackHandler cbEnvStep5Fail emptyWorld cbReq).resp.status = 500 ∧
    strContains (StepId.phrase .createOperationalKeyStore)
      (oidcCallbackHandler cbEnvStep5Fail emptyWorld cbReq).resp.body ∧
    (oidcCallbackHandler cbEnvStep5Fail emptyWorld cbReq).world = emptyWorld ∧
    StepId.updateUserBootstrapData ∉
      (oidcCallbackHandler cbEnvStep5Fail emptyWorld cbReq).executed :=
  let h := callback_provisioning_fail_fast cbEnvStep5Fail emptyWorld cbReq baseSession
    "S1" "U1" ⟨"AT", "RT", "Bearer"⟩ .createOperationalKeyStore "boom"
    rfl rfl rfl (by decide) rfl rfl rfl rfl rfl rfl (by decide)
  ⟨h.1, h.2.1, h.2.2.1, h.2.2.2 .updateUserBootstrapData (by decide)⟩

/-- C3: for every callback request where no state is stored in the session,
or the `state` query parameter does not equal the stored value (an absent
parameter is read as the empty string and so never equals a stored random
value), or the `code` query parameter is absent, the handler responds 400,
for every identity-provider environment (so regardless of whether the
presented code would be accepted). -/
theorem callback_bad_state_or_code
    (env : CallbackEnv) (w : World) (req : CallbackReq) (session : Session)
    (hopen : env.openCookies = .ok session)
    (hbad : session.state = none ∨
      (∀ s, session.state = some s → req.state ≠ s) ∨ req.code = "") :
    (oidcCallbackHandler env w req).resp.status = 400 := by
  rcases hbad with h | h | h
  · simp [oidcCallbackHandler, hopen, h]
  · cases hs : session.state with
    | none => simp [oidcCallbackHandler, hopen, hs]
    | some s =>
      have hne := h s hs
      simp [oidcCallbackHandler, hopen, hs, hne]
  · cases hs : session.state with
    | none => simp [oidcCallbackHandler, hopen, hs]
    | some s =>
      by_cases hst : req.state = s
      · simp [oidcCallbackHandler, hopen, hs, hst, h]
      · simp [oidcCallbackHandler, hopen, hs, hst]

/-- C3 witness: a callback with a valid-looking code but no stored state
responds 400, even though the identity provider would accept the code. -/
theorem callback_bad_state_or_code_witness :
    (oidcCallbackHandler cbEnvNoState emptyWorld cbReq).resp.status = 400 :=
  callback_bad_state_or_code cbEnvNoState emptyWorld cbReq ⟨none, none, none⟩
    rfl (.inl rfl)

/-- C4: during callback processing with a valid state and a present code, a
failing code-for-token exchange yields 502, a failing ID-token verification
yields 502, and a failure to parse the verified token's claims into the
user identity yields 500. -/
theorem callback_upstream_vs_local_errors
    (env : CallbackEnv) (w : World) (req : CallbackReq)
    (session : Session) (stored : String)
    (hopen : env.openCookies = .ok session)
    (hstored : session.state = some stored)
    (hstate : req.state = stored)
    (hcode : req.code ≠ "") :
    (∀ e, env.oidc.exchange = .error e →
      (oidcCallbackHandler env w req).resp.status = 502) ∧
    (∀ tok e, env.oidc.exchange = .ok tok → env.oidc.verifyIDToken = .error e →
      (oidcCallbackHandler env w req).resp.status = 502) ∧
    (∀ tok e, env.oidc.exchange = .ok tok → env.oidc.verifyIDToken = .ok () →
      env.oidc.claims = .error e →
      (oidcCallbackHandler env w req).resp.status = 500) := by
  refine ⟨?_, ?_, ?_⟩
  · intro e he
    simp [oidcCallbackHandler, hopen, hstored, hstate, hcode, he]
  · intro tok e hex hv
    simp [oidcCallbackHandler, hopen, hstored, hstate, hcode, hex, hv]
  · intro tok e hex hv hc
    simp [oidcCallbackHandler, hopen, hstored, hstate, hcode, hex, hv, hc]

/-- C4 witness: a concrete callback whose code-for-token exchange fails
responds 502. -/
theorem callback_upstream_vs_local_errors_witness :
    (oidcCallbackHandler cbEnvExchFail emptyWorld cbReq).resp.status = 502 :=
  (callback_upstream_vs_local_errors cbEnvExchFail emptyWorld cbReq baseSession "S1"
    rfl rfl rfl (by decide)).1 "bad code" rfl

/-- C5: the Bootstrap Data record posted to the authorization server by a
successful first-login provisioning run is returned field-for-field
identical in the `bootstrap` object of a later successful profile
retrieval for the same subject. -/
theorem bootstrap_round_trip
    (env : CallbackEnv) (w : World) (req : CallbackReq)
    (session : Session) (stored sub : String) (tok : OAuthTokens)
    (data : BootstrapData)
    (penv : ProfileEnv) (psession : Session) (cl : List (String × String))
    (hopen : env.openCookies = .ok session)
    (hstored : session.state = some stored)
    (hstate : req.state = stored)
    (hcode : req.code ≠ "")
    (hexch : env.oidc.exchange = .ok tok)
    (hverify : env.oidc.verifyIDToken = .ok ())
    (hclaims : env.oidc.claims = .ok sub)
    (hread : env.tokenReadErr = none)
    (hnew : assocGet sub w.tokenStore = none)
    (hsteps : ∀ j : StepId, stepRes env.provision j = .ok ())
    (hwrite : env.tokenWriteErr = none)
    (hsave : env.saveCookies = .ok ())
    (hdata : (provisionRun env.provision w.authServer sub).result = .ok data)
    (hpopen : penv.openCookies = .ok psession)
    (hpsub : psession.userSub = some (.str sub))
    (hpread : penv.tokenReadErr = none)
    (hpinfo : penv.fetchUserInfo = .ok ())
    (hpclaims : penv.extractClaims = .ok cl)
    (hpboot : penv.bootstrapReadErr = none) :
    (userProfileHandler penv (oidcCallbackHandler env w req).world).1.status = 200 ∧
    ∃ prof, (userProfileHandler penv (oidcCallbackHandler env w req).world).2 =
        some prof ∧
      prof.bootstrap.authzKeyStoreURL = data.authzKeyStoreURL ∧
      prof.bootstrap.opsKeyStoreURL = data.opsKeyStoreURL ∧
      prof.bootstrap.opsEDVVaultURL = data.opsEDVVaultURL ∧
      prof.bootstrap.edvOpsKeyID = data.edvOpsKeyID ∧
      prof.bootstrap.edvHMACKeyID = data.edvHMACKeyID ∧
      prof.bootstrap.userEDVVaultURL = data.userEDVVaultURL ∧
      prof.bootstrap.userEDVCapability = data.userEDVCapability := by
  obtain ⟨v0, v1, v3, v4, v5, v6, v7, v8, p9, h0, h1, h2, h3, h4, h5, h6, h7, h8, h9, h10⟩ :=
    stepsAllOk env.provision hsteps
  have hrun := provisionRun_ok env.provision w.authServer sub v0 v1 v3 v4 v5 v6 v7 v8 p9
    h0 h1 h2 h3 h4 h5 h6 h7 h8 h9 h10
  rw [hrun] at hdata
  simp only [Except.ok.injEq] at hdata
  rw [hdata] at hrun
  have hworld : (oidcCallbackHandler env w req).world =
      ⟨(sub, ⟨tok, some data⟩) :: w.tokenStore, (sub, data) :: w.authServer⟩ := by
    simp [oidcCallbackHandler, persistAndFinish, hopen, hstored, hstate, hcode, hexch,
      hverify, hclaims, hread, hnew, hrun, hwrite, hsave]
  have hprof : userProfileHandler penv (oidcCallbackHandler env w req).world =
      (⟨200, "", none⟩, some ⟨cl, sub, data⟩) := by
    rw [hworld]
    simp [userProfileHandler, hpopen, hpsub, hpread, hpinfo, hpclaims, hpboot, assocGet]
  rw [hprof]
  exact ⟨rfl, ⟨cl, sub, data⟩, rfl, rfl, rfl, rfl, rfl, rfl, rfl, rfl⟩

/-- C5 witness: the concrete successful first login for `U1` posts its
assembled Bootstrap Data, and the subsequent profile retrieval returns it
field-for-field. -/
theorem bootstrap_round_trip_witness :
    (userProfileHandler profEnvOk (oidcCallbackHandler cbEnvOk emptyWorld cbReq).world).1.status = 200 ∧
    ∃ prof, (userProfileHandler profEnvOk
        (oidcCallbackHandler cbEnvOk emptyWorld cbReq).world).2 = some prof ∧
      prof.bootstrap.authzKeyStoreURL = "https://authz-kms/ks1" ∧
      prof.bootstrap.opsKeyStoreURL = "https://ops-kms/ks2" ∧
      prof.bootstrap.opsEDVVaultURL = "https://edv/ops-vault" ∧
      prof.bootstrap.edvOpsKeyID = "opsKeyID" ∧
      prof.bootstrap.edvHMACKeyID = "hmacKeyID" ∧
      prof.bootstrap.userEDVVaultURL = "https://edv/user-vault" ∧
      prof.bootstrap.userEDVCapability = "userCap" :=
  bootstrap_round_trip cbEnvOk emptyWorld cbReq baseSession "S1" "U1"
    ⟨"AT", "RT", "Bearer"⟩
    ⟨"https://authz-kms/ks1", "https://ops-kms/ks2", "https://edv/ops-vault",
     "opsKeyID", "hmacKeyID", "https://edv/user-vault", "userCap"⟩
    profEnvOk profSession [("email", "u1@example.com")]
    rfl rfl rfl (by decide) rfl rfl rfl rfl rfl (by decide) rfl rfl rfl rfl rfl rfl rfl rfl rfl

/-- C6 counterexample: a GET /userinfo request whose session cookie jar
cannot be opened is answered 400, which is neither 200 nor any of
403/500/502, so the claimed status set does not cover every request. -/
theorem userinfo_status_counterexample :
    (userProfileHandler profEnvBadCookies emptyWorld).1.status = 400 ∧
    (userProfileHandler profEnvBadCookies emptyWorld).1.status ≠ 200 ∧
    (userProfileHandler profEnvBadCookies emptyWorld).1.status ≠ 403 ∧
    (userProfileHandler profEnvBadCookies emptyWorld).1.status ≠ 500 ∧
    (userProfileHandler profEnvBadCookies emptyWorld).1.status ≠ 502 := by
  refine ⟨rfl, ?_, ?_, ?_, ?_⟩ <;> decide

/-- C6 (amended): for every GET /userinfo request whose session cookie jar
opens successfully, the response status is 200 on success and otherwise one
of 403/500/502, mapped as: missing user cookie 403 "not logged in",
malformed (non-string) cookie value 500, token-store read failure 500,
upstream user-info fetch failure 502, claims-extraction failure 500,
bootstrap-data fetch failure 500; on success the profile payload is
returned. -/
theorem userinfo_status_mapping
    (env : ProfileEnv) (w : World) (session : Session)
    (hopen : env.openCookies = .ok session) :
    ((userProfileHandler env w).1.status = 200 ∨
     (userProfileHandler env w).1.status = 403 ∨
     (userProfileHandler env w).1.status = 500 ∨
     (userProfileHandler env w).1.status = 502) ∧
    (session.userSub = none →
      (userProfileHandler env w).1.status = 403 ∧
      strContains "not logged in" (userProfileHandler env w).1.body) ∧
    (session.userSub = some .blob →
      (userProfileHandler env w).1.status = 500) ∧
    (∀ sub e, session.userSub = some (.str sub) → env.tokenReadErr = some e →
      (userProfileHandler env w).1.status = 500) ∧
    (∀ sub r e, session.userSub = some (.str sub) → env.tokenReadErr = none →
      assocGet sub w.tokenStore = some r → env.fetchUserInfo = .error e →
      (userProfileHandler env w).1.status = 502) ∧
    (∀ sub r e, session.userSub = some (.str sub) → env.tokenReadErr = none →
      assocGet sub w.tokenStore = some r → env.fetchUserInfo = .ok () →
      env.extractClaims = .error e →
      (userProfileHandler env w).1.status = 500) ∧
    (∀ sub r cl e, session.userSub = some (.str sub) → env.tokenReadErr = none →
      assocGet sub w.tokenStore = some r → env.fetchUserInfo = .ok () →
      env.extractClaims = .ok cl → env.bootstrapReadErr = some e →
      (userProfileHandler env w).1.status = 500) ∧
    (∀ sub r cl d, session.userSub = some (.str sub) → env.tokenReadErr = none →
      assocGet sub w.tokenStore = some r → env.fetchUserInfo = .ok () →
      env.extractClaims = .ok cl → env.bootstrapReadErr = none →
      assocGet sub w.authServer = some d →
      (userProfileHandler env w).1.status = 200 ∧
      (userProfileHandler env w).2 = some ⟨cl, sub, d⟩) := by
  refine ⟨?_, ?_, ?_, ?_, ?_, ?_, ?_, ?_⟩
  · rcases hsub : session.userSub with _ | cv
    · simp [userProfileHandler, hopen, hsub]
    · cases cv with
      | blob => simp [userProfileHandler, hopen, hsub]
      | str sub =>
        rcases hre : env.tokenReadErr with _ | e
        · rcases hg : assocGet sub w.tokenStore with _ | r
          · simp [userProfileHandler, hopen, hsub, hre, hg]
          · rcases hui : env.fetchUserInfo with e | u
            · simp [userProfileHandler, hopen, hsub, hre, hg, hui]
            · rcases hcl : env.extractClaims with e | cl
              · simp [userProfileHandler, hopen, hsub, hre, hg, hui, hcl]
              · rcases hbe : env.bootstrapReadErr with _ | e
                · rcases hb : assocGet sub w.authServer with _ | d
                  · simp [userProfileHandler, hopen, hsub, hre, hg, hui, hcl, hbe, hb]
                  · simp [userProfileHandler, hopen, hsub, hre, hg, hui, hcl, hbe, hb]
                · simp [userProfileHandler, hopen, hsub, hre, hg, hui, hcl, hbe]
        · simp [userProfileHandler, hopen, hsub, hre]
  · intro hsub
    exact ⟨by simp [userProfileHandler, hopen, hsub], by
      have hb : (userProfileHandler env w).1.body = "not logged in" := by
        simp [userProfileHandler, hopen, hsub]
      rw [hb]
      exact strContains_self _⟩
  · intro hsub
    simp [userProfileHandler, hopen, hsub]
  · intro sub e hsub hre
    simp [userProfileHandler, hopen, hsub, hre]
  · intro sub r e hsub hre hg hui
    simp [userProfileHandler, hopen, hsub, hre, hg, hui]
  · intro sub r e hsub hre hg hui hcl
    simp [userProfileHandler, hopen, hsub, hre, hg, hui, hcl]
  · intro sub r cl e hsub hre hg hui hcl hbe
    simp [userProfileHandler, hopen, hsub, hre, hg, hui, hcl, hbe]
  · intro sub r cl d hsub hre hg hui hcl hbe hb
    constructor <;> simp [userProfileHandler, hopen, hsub, hre, hg, hui, hcl, hbe, hb]

/-- C6 witness: the concrete fully provisioned subject `U1` retrieves a 200
profile carrying its claims, subject and bootstrap record. -/
theorem userinfo_status_mapping_witness :
    (userProfileHandler profEnvOk worldU1).1.status = 200 ∧
    (userProfileHandler profEnvOk worldU1).2 =
      some ⟨[("email", "u1@example.com")], "U1", dataA⟩ :=
  (userinfo_status_mapping profEnvOk worldU1 profSession rfl).2.2.2.2.2.2.2
    "U1" ⟨⟨"AT", "RT", "Bearer"⟩, some dataA⟩ [("email", "u1@example.com")] dataA
    rfl rfl rfl rfl rfl rfl rfl

/-- C7: logout with no user-identity entry in the session responds 200 with
an empty error body, identical to logout when the entry exists and the
cleared cookie saves successfully; a persistence failure while deleting the
entry responds 500 with a body containing
"failed to delete user sub cookie". -/
theorem logout_idempotent
    (envA envB envC : LogoutEnv) (sA sB sC : Session) (v u : CookieVal) (e : String)
    (hA : envA.openCookies = .ok sA) (hAn : sA.userSub = none)
    (hB : envB.openCookies = .ok sB) (hBs : sB.userSub = some v)
    (hBsave : envB.saveCookies = .ok ())
    (hC : envC.openCookies = .ok sC) (hCs : sC.userSub = some u)
    (hCsave : envC.saveCookies = .error e) :
    (userLogoutHandler envA).1.status = 200 ∧
    (userLogoutHandler envA).1 = (userLogoutHandler envB).1 ∧
    (userLogoutHandler envB).1.status = 200 ∧
    (userLogoutHandler envC).1.status = 500 ∧
    strContains "failed to delete user sub cookie" (userLogoutHandler envC).1.body := by
  have ha : (userLogoutHandler envA).1 = ⟨200, "", none⟩ := by
    simp [userLogoutHandler, hA, hAn]
  have hb : (userLogoutHandler envB).1 = ⟨200, "", none⟩ := by
    simp [userLogoutHandler, hB, hBs, hBsave]
  have hc : (userLogoutHandler envC).1 =
      ⟨500, "failed to delete user sub cookie" ++ ": " ++ e, none⟩ := by
    simp [userLogoutHandler, hC, hCs, hCsave]
  rw [ha, hb, hc]
  exact ⟨rfl, rfl, rfl, rfl, strContains_wrap _ _ _⟩

/-- C7 witness: concrete logouts with no entry, with an entry and a working
jar, and with a failing jar save behave as the theorem states. -/
theorem logout_idempotent_witness :
    (userLogoutHandler logoutEnvNoUser).1.status = 200 ∧
    (userLogoutHandler logoutEnvNoUser).1 = (userLogoutHandler logoutEnvUser).1 ∧
    (userLogoutHandler logoutEnvUser).1.status = 200 ∧
    (userLogoutHandler logoutEnvSaveFail).1.status = 500 ∧
    strContains "failed to delete user sub cookie"
      (userLogoutHandler logoutEnvSaveFail).1.body :=
  logout_idempotent logoutEnvNoUser logoutEnvUser logoutEnvSaveFail
    ⟨none, none, none⟩ profSession profSession (.str "U1") (.str "U1") "test"
    rfl rfl rfl rfl rfl rfl rfl rfl

/-- C8 counterexample: a GET /login request whose session already holds a
user identity, with a cookie jar that could be persisted, is answered 301,
not the claimed 302, and no fresh state or nonce is stored. -/
theorem login_always_redirects_counterexample :
    (oidcLoginHandler loginEnvLoggedIn).1.status = 301 ∧
    (oidcLoginHandler loginEnvLoggedIn).1.status ≠ 302 ∧
    (oidcLoginHandler loginEnvLoggedIn).2 = none := by
  refine ⟨rfl, ?_, rfl⟩
  decide

/-- C8 (amended): for every GET /login request whose session opens and
contains no user-identity entry, the handler stores fresh state and nonce
values in the session cookie and responds 302 with Location equal to the
identity provider's authorization URL; if the cookie cannot be persisted,
it responds 500 and does not redirect and nothing is stored. -/
theorem login_fresh_state_redirects
    (env : LoginEnv) (session : Session)
    (hopen : env.openCookies = .ok session)
    (hanon : session.userSub = none) :
    (env.saveCookies = .ok () →
      (oidcLoginHandler env).1.status = 302 ∧
      (oidcLoginHandler env).1.location =
        some (env.authURL env.freshState env.freshNonce) ∧
      (oidcLoginHandler env).2 =
        some { session with
               state := some env.freshState
               nonce := some env.freshNonce }) ∧
    (∀ e, env.saveCookies = .error e →
      (oidcLoginHandler env).1.status = 500 ∧
      (oidcLoginHandler env).1.location = none ∧
      (oidcLoginHandler env).2 = none) := by
  constructor
  · intro hsave
    refine ⟨?_, ?_, ?_⟩ <;> simp [oidcLoginHandler, hopen, hanon, hsave]
  · intro e hsave
    refine ⟨?_, ?_, ?_⟩ <;> simp [oidcLoginHandler, hopen, hanon, hsave]

/-- C8 witness: the concrete anonymous login stores the fresh state and
nonce and redirects 302 to the identity provider's authorization URL. -/
theorem login_fresh_state_redirects_witness :
    (oidcLoginHandler loginEnvOk).1.status = 302 ∧
    (oidcLoginHandler loginEnvOk).1.location =
      some (loginEnvOk.authURL loginEnvOk.freshState loginEnvOk.freshNonce) ∧
    (oidcLoginHandler loginEnvOk).2 =
      some ⟨some loginEnvOk.freshState, some loginEnvOk.freshNonce, none⟩ :=
  (login_fresh_state_redirects loginEnvOk ⟨none, none, none⟩ rfl rfl).1 rfl

/-- C9: a GET /login request whose session already contains a user-identity
entry is answered 301 Moved Permanently, no 302 redirect is issued, and no
fresh state or nonce is stored in the session cookie. -/
theorem login_already_logged_in
    (env : LoginEnv) (session : Session) (v : CookieVal)
    (hopen : env.openCookies = .ok session)
    (hsub : session.userSub = some v) :
    (oidcLoginHandler env).1.status = 301 ∧
    (oidcLoginHandler env).1.status ≠ 302 ∧
    (oidcLoginHandler env).2 = none := by
  have h : (oidcLoginHandler env).1 = ⟨301, "", none⟩ := by
    simp [oidcLoginHandler, hopen, hsub]
  refine ⟨by rw [h], by rw [h]; decide, by simp [oidcLoginHandler, hopen, hsub]⟩

/-- C9 witness: the concrete logged-in login request is answered 301 and
stores nothing. -/
theorem login_already_logged_in_witness :
    (oidcLoginHandler loginEnvLoggedIn).1.status = 301 ∧
    (oidcLoginHandler loginEnvLoggedIn).1.status ≠ 302 ∧
    (oidcLoginHandler loginEnvLoggedIn).2 = none :=
  login_already_logged_in loginEnvLoggedIn profSession (.str "U1") rfl rfl

/-- C10: for both GET /userinfo and GET /logout, a session cookie jar that
cannot be opened yields 400 with a body containing "cannot open cookies",
while the same failure on the callback path yields 500. -/
theorem cookie_open_failure_status_split
    (pe : ProfileEnv) (le : LogoutEnv) (ce : CallbackEnv)
    (w w₁ : World) (req : CallbackReq) (e₁ e₂ e₃ : String)
    (h₁ : pe.openCookies = .error e₁)
    (h₂ : le.openCookies = .error e₂)
    (h₃ : ce.openCookies = .error e₃) :
    ((userProfileHandler pe w).1.status = 400 ∧
     strContains "cannot open cookies" (userProfileHandler pe w).1.body) ∧
    ((userLogoutHandler le).1.status = 400 ∧
     strContains "cannot open cookies" (userLogoutHandler le).1.body) ∧
    (oidcCallbackHandler ce w₁ req).resp.status = 500 := by
  have hp : (userProfileHandler pe w).1 = ⟨400, "cannot open cookies" ++ ": " ++ e₁, none⟩ := by
    simp [userProfileHandler, h₁]
  have hl : (userLogoutHandler le).1 = ⟨400, "cannot open cookies" ++ ": " ++ e₂, none⟩ := by
    simp [userLogoutHandler, h₂]
  have hcb : (oidcCallbackHandler ce w₁ req).resp.status = 500 := by
    simp [oidcCallbackHandler, h₃]
  rw [hp, hl]
  exact ⟨⟨rfl, strContains_wrap _ _ _⟩, ⟨rfl, strContains_wrap _ _ _⟩, hcb⟩

/-- C10 witness: the concrete userinfo and logout requests with an
unopenable cookie jar are answered 400 "cannot open cookies", while the
concrete callback with the same failure is answered 500. -/
theorem cookie_open_failure_status_split_witness :
    ((userProfileHandler profEnvBadCookies emptyWorld).1.status = 400 ∧
     strContains "cannot open cookies"
       (userProfileHandler profEnvBadCookies emptyWorld).1.body) ∧
    ((userLogoutHandler logoutEnvBadCookies).1.status = 400 ∧
     strContains "cannot open cookies"
       (userLogoutHandler logoutEnvBadCookies).1.body) ∧
    (oidcCallbackHandler cbEnvBadCookies emptyWorld cbReq).resp.status = 500 :=
  cookie_open_failure_status_split profEnvBadCookies logoutEnvBadCookies cbEnvBadCookies
    emptyWorld emptyWorld cbReq "test" "test" "test" rfl rfl rfl
